import Mathlib

/-!
Verification development for the frequenz-cs-reporting dashboard repository.

The Python sources are shallowly embedded: pure functions become Lean
functions, raised exceptions become the error side of `Except`, machine
floats used by the percentage-bar arithmetic are modelled by `Rat`, and the
process environment / Streamlit session state are passed explicitly as
association lists.
-/

set_option autoImplicit false

unseal Rat.add Rat.sub Rat.mul Rat.inv

namespace CsReporting

/-- Decidable equality for `Except`, used to evaluate the embedded
functions on concrete inputs. -/
instance {ε α : Type} [DecidableEq ε] [DecidableEq α] : DecidableEq (Except ε α) := fun a b =>
  match a, b with
  | .ok x, .ok y =>
    if h : x = y then .isTrue (by rw [h]) else .isFalse (fun hh => h (Except.ok.inj hh))
  | .error x, .error y =>
    if h : x = y then .isTrue (by rw [h]) else .isFalse (fun hh => h (Except.error.inj hh))
  | .ok _, .error _ => .isFalse (fun hh => Except.noConfusion hh)
  | .error _, .ok _ => .isFalse (fun hh => Except.noConfusion hh)

/-- Python exceptions raised by the embedded code, with their messages.
The spec names map onto builtin exceptions as follows:
`MissingEnvironment` and `ReentrantAsyncCall` are `RuntimeError`s,
`InvalidRange` is a `ValueError`, `UnknownMicrogrid` is a `KeyError`,
`UnsupportedType` is a `TypeError`, `FetchTimeout` is `asyncio.TimeoutError`. -/
inductive PyError where
  | runtimeError (msg : String)
  | valueError (msg : String)
  | keyError (msg : String)
  | typeError (msg : String)
  | timeoutError
deriving DecidableEq, Repr

/-! ## Calendar arithmetic (mirrors CPython `datetime` ordinals)

`src/frequenz/frequenz_cs_reporting/utils/time.py` manipulates
`datetime.date` / `datetime.datetime` values and compares the pandas
timestamps chronologically.  We embed dates in the proleptic Gregorian
calendar exactly as CPython does (`date.toordinal`). -/

/-- A calendar date (`datetime.date`): proleptic Gregorian, year at least 1. -/
structure Date where
  year : Nat
  month : Nat
  day : Nat
deriving DecidableEq, Repr

/-- A wall-clock datetime (`datetime.datetime` at second granularity). -/
structure DateTime where
  date : Date
  hour : Nat
  minute : Nat
  second : Nat
deriving DecidableEq, Repr

/-- Gregorian leap-year test, as in CPython `calendar.isleap`. -/
def isLeap (y : Nat) : Bool :=
  y % 4 = 0 && (y % 100 != 0 || y % 400 = 0)

/-- Days in the given month of the given year. -/
def daysInMonth (y m : Nat) : Nat :=
  if m = 2 then (if isLeap y then 29 else 28)
  else if m = 4 || m = 6 || m = 9 || m = 11 then 30
  else 31

/-- Days in all years strictly before year `y` (CPython `_days_before_year`). -/
def daysBeforeYear (y : Nat) : Nat :=
  365 * (y - 1) + (y - 1) / 4 - (y - 1) / 100 + (y - 1) / 400

/-- Days in the months of year `y` strictly before month `m`
(CPython `_days_before_month`). -/
def daysBeforeMonth (y m : Nat) : Nat :=
  let table : List Nat := [0, 31, 59, 90, 120, 151, 181, 212, 243, 273, 304, 334]
  (table.getD (m - 1) 0) + (if 2 < m && isLeap y then 1 else 0)

/-- Proleptic Gregorian ordinal of a date (CPython `date.toordinal`). -/
def Date.toOrdinal (d : Date) : Nat :=
  daysBeforeYear d.year + daysBeforeMonth d.year d.month + d.day

/-- Seconds since the calendar epoch; chronological comparison of
`datetime` / pandas timestamps is comparison of this value. -/
def DateTime.toSeconds (t : DateTime) : Nat :=
  t.date.toOrdinal * 86400 + t.hour * 3600 + t.minute * 60 + t.second

/-- Structural field validity of a date. -/
def Date.valid (d : Date) : Prop :=
  1 ≤ d.year ∧ d.year ≤ 9999 ∧ 1 ≤ d.month ∧ d.month ≤ 12 ∧
    1 ≤ d.day ∧ d.day ≤ daysInMonth d.year d.month

instance (d : Date) : Decidable d.valid := by
  unfold Date.valid; infer_instance

/-- Structural field validity of a datetime. -/
def DateTime.valid (t : DateTime) : Prop :=
  t.date.valid ∧ t.hour < 24 ∧ t.minute < 60 ∧ t.second < 60

instance (t : DateTime) : Decidable t.valid := by
  unfold DateTime.valid; infer_instance

/-! ## ISO-8601 rendering and parsing -/

/-- Zero-pad to two digits. -/
def pad2 (n : Nat) : String :=
  if n < 10 then "0" ++ toString n else toString n

/-- Zero-pad to four digits. -/
def pad4 (n : Nat) : String :=
  if n < 10 then "000" ++ toString n
  else if n < 100 then "00" ++ toString n
  else if n < 1000 then "0" ++ toString n
  else toString n

/-- `datetime.isoformat()` on a second-granularity value:
`YYYY-MM-DDTHH:MM:SS`. -/
def DateTime.isoformat (t : DateTime) : String :=
  pad4 t.date.year ++ "-" ++ pad2 t.date.month ++ "-" ++ pad2 t.date.day ++
    "T" ++ pad2 t.hour ++ ":" ++ pad2 t.minute ++ ":" ++ pad2 t.second

/-- Split a character list at every occurrence of a separator character
(structural-recursion analogue of `String.split`). -/
def splitOnChar (sep : Char) : List Char → List (List Char)
  | [] => [[]]
  | c :: cs =>
    let r := splitOnChar sep cs
    if c = sep then [] :: r
    else
      match r with
      | [] => [[c]]
      | h :: t => (c :: h) :: t

/-- Decimal value of a run of digit characters. -/
def digitsToNat (l : List Char) : Nat :=
  l.foldl (fun a c => a * 10 + (c.toNat - 48)) 0

/-- Parse a fixed-width run of digits. -/
def parseDigits (width : Nat) (cs : List Char) : Option Nat :=
  if cs.length = width && cs.all Char.isDigit then some (digitsToNat cs) else none

/-- Parse `YYYY-MM-DD`, rejecting out-of-range fields as pandas does. -/
def parseIsoDate (cs : List Char) : Option Date :=
  match splitOnChar '-' cs with
  | [ys, ms, ds] => do
    let y ← parseDigits 4 ys
    let m ← parseDigits 2 ms
    let d ← parseDigits 2 ds
    let date : Date := ⟨y, m, d⟩
    if date.valid then some date else none
  | _ => none

/-- Parse `HH:MM` or `HH:MM:SS` into (hour, minute, second). -/
def parseIsoTime (cs : List Char) : Option (Nat × Nat × Nat) :=
  match splitOnChar ':' cs with
  | [hs, ms] => do
    let h ← parseDigits 2 hs
    let m ← parseDigits 2 ms
    if h < 24 ∧ m < 60 then some (h, m, 0) else none
  | [hs, ms, ss] => do
    let h ← parseDigits 2 hs
    let m ← parseDigits 2 ms
    let sec ← parseDigits 2 ss
    if h < 24 ∧ m < 60 ∧ sec < 60 then some (h, m, sec) else none
  | _ => none

/-- Parse an ISO-8601 date or datetime string, as `pandas.to_datetime`
accepts them (the subset exercised by this repository). -/
def parseIso8601 (s : String) : Option DateTime :=
  match splitOnChar 'T' s.toList with
  | [ds] => (parseIsoDate ds).map (fun d => ⟨d, 0, 0, 0⟩)
  | [ds, ts] => do
    let d ← parseIsoDate ds
    let (h, m, sec) ← parseIsoTime ts
    some ⟨d, h, m, sec⟩
  | _ => none

/-! ## `utils/time.py` -/

/-- The `DateLike = Union[str, date, datetime]` input type of
`utils/time.py`; `ofNumber` stands for a non-date-like Python object
(the `TypeError` branch of `to_iso8601`). -/
inductive DateLike where
  | ofStr (s : String)
  | ofDate (d : Date)
  | ofDatetime (t : DateTime)
  | ofNumber (n : Int)
deriving DecidableEq, Repr

/-- `to_iso8601` from `utils/time.py`: strings pass through unchanged,
datetimes render via `isoformat`, dates become the midnight datetime and
render via `isoformat`, anything else raises
`TypeError(f"Invalid date-like value: {d!r}")`. -/
def to_iso8601 : DateLike → Except PyError String
  | .ofStr s => .ok s
  | .ofDatetime t => .ok t.isoformat
  | .ofDate d => .ok (DateTime.isoformat ⟨d, 0, 0, 0⟩)
  | .ofNumber n => .error (.typeError ("Invalid date-like value: " ++ toString n))

/-- `pandas.to_datetime` on the `DateLike` domain used by
`validate_range`: parse strings, lift dates to midnight, keep datetimes.
A number reaching it is outside the embedded domain (pandas would decode
it as an epoch offset, which no caller in this repository does). -/
def pd_to_datetime : DateLike → Except PyError DateTime
  | .ofStr s =>
    match parseIso8601 s with
    | some t => .ok t
    | none => .error (.valueError ("Unknown datetime string format: " ++ s))
  | .ofDate d => .ok ⟨d, 0, 0, 0⟩
  | .ofDatetime t => .ok t
  | .ofNumber n => .error (.valueError ("out of embedded domain: " ++ toString n))

/-- The `InvalidRange` error of the spec: the exact `ValueError` raised by
`validate_range`. -/
def InvalidRange : PyError := .valueError "end_date must be after start_date"

/-- `validate_range` from `utils/time.py`: convert both bounds with
`pandas.to_datetime`, raise `InvalidRange` when `end_dt <= start_dt`,
otherwise return the converted pair. -/
def validate_range (start endv : DateLike) : Except PyError (DateTime × DateTime) :=
  match pd_to_datetime start with
  | .error e => .error e
  | .ok start_dt =>
    match pd_to_datetime endv with
    | .error e => .error e
    | .ok end_dt =>
      if end_dt.toSeconds ≤ start_dt.toSeconds then
        .error InvalidRange
      else
        .ok (start_dt, end_dt)

/-! ## `components/plot_charts.py`

Float values of the Python code are embedded as `Rat`; the Plotly figure
is abstracted to the data it renders: either the no-data placeholder or
the ordered list of (label, value, percentage) bar traces plus the total
shown in the header text. -/

/-- Abstract rendering of the figure produced by `plot_percentage_bar`. -/
inductive Figure where
  | noData (text : String)
  | bar (segments : List (String × Rat × Rat)) (total : Rat)
deriving DecidableEq, Repr

/-- The placeholder text of the degenerate figure. -/
def noDataText : String := "No data to display: total is zero or negative"

/-- Stable insertion into a list sorted descending by the key `f`: the new
element goes after every already-present element whose key is at least as
large.  `sortDescBy` below therefore has the semantics of the stable
Python `list.sort(key=..., reverse=True)`. -/
def insertDescBy {α : Type} (f : α → Rat) (x : α) : List α → List α
  | [] => [x]
  | y :: ys => if f y < f x then x :: y :: ys else y :: insertDescBy f x ys

/-- Stable sort, descending by the key `f` (Python
`sort(key=lambda x: x[1], reverse=True)`). -/
def sortDescBy {α : Type} (f : α → Rat) (l : List α) : List α :=
  l.foldl (fun acc x => insertDescBy f x acc) []

/-- The `clean` mapping: every `None` value becomes `0.0`
(`{k: (float(v) if v is not None else 0.0) for k, v in data_points.items()}`). -/
def cleanPoints (data_points : List (String × Option Rat)) : List (String × Rat) :=
  data_points.map (fun p => (p.1, p.2.getD 0))

/-- `used = sum(v for k, v in clean.items() if k != total_key)`: every
non-total entry is summed, whatever its sign. -/
def usedSum (clean : List (String × Rat)) (total_key : String) : Rat :=
  ((clean.filter (fun p => p.1 ≠ total_key)).map Prod.snd).sum

/-- `segments = {k: v for k, v in clean.items() if k != total_key and v > 0}`. -/
def positiveSegments (clean : List (String × Rat)) (total_key : String) :
    List (String × Rat) :=
  clean.filter (fun p => p.1 ≠ total_key ∧ 0 < p.2)

/-- `leftover = max(0.0, display_base - used)` with
`display_base = max(total, used)`. -/
def leftoverOf (total used : Rat) : Rat :=
  max 0 (max total used - used)

/-- Python dict assignment `d[k] = v` on an association list with unique
keys: overwrite an existing entry in place, otherwise append at the end. -/
def dictSet (l : List (String × Rat)) (k : String) (v : Rat) : List (String × Rat) :=
  match l with
  | [] => [(k, v)]
  | p :: rest => if p.1 = k then (k, v) :: rest else p :: dictSet rest k v

/-- The segment dictionary after `segments["Others"] = leftover`, which
runs when the leftover is positive (overwriting any existing `Others`
entry, as the dict assignment does). -/
def segmentsWithOthers (clean : List (String × Rat)) (total_key : String) (total : Rat) :
    List (String × Rat) :=
  let leftover := leftoverOf total (usedSum clean total_key)
  if 0 < leftover then dictSet (positiveSegments clean total_key) "Others" leftover
  else positiveSegments clean total_key

/-- `seg_with_pct`: each segment with its percentage of
`display_base = max(total, used)` (guarded exactly as the code guards a
zero base). -/
def segWithPct (clean : List (String × Rat)) (total_key : String) (total : Rat) :
    List (String × Rat × Rat) :=
  let base := max total (usedSum clean total_key)
  (segmentsWithOthers clean total_key total).map
    (fun p => (p.1, p.2, if 0 < base then p.2 / base * 100 else 0))

/-- `plot_percentage_bar` from `components/plot_charts.py`.  Raises
`ValueError` when `total_key` is not a key of `data_points` (the quotes
of the Python message around the key are elided), degenerates to the
no-data placeholder when the total is not positive, and otherwise renders
the positive non-total segments plus the `Others` bucket, sorted
descending by value. -/
def plot_percentage_bar (data_points : List (String × Option Rat)) (total_key : String) :
    Except PyError Figure :=
  match (cleanPoints data_points).lookup total_key with
  | none => .error (.valueError ("Total key " ++ total_key ++ " not found."))
  | some total =>
    if total ≤ 0 then
      .ok (.noData noDataText)
    else
      .ok (.bar (sortDescBy (fun x => x.2.1)
        (segWithPct (cleanPoints data_points) total_key total)) total)

/-! ## `utils/env.py` and `services/client_factory.py`

The process environment and the on-disk configuration directory are
passed explicitly as a `FactoryWorld`.  The Streamlit cache decorators are
recorded declaratively as `CacheSpec` values taken from the decorator
arguments in the source. -/

/-- The process environment; an unset variable is an absent key. -/
abbrev Env := List (String × String)

/-- The message of the `RuntimeError` raised by `require_env`. -/
def missingEnvMsg (var : String) : String :=
  "Missing or empty required environment variable `" ++ var ++ "`. " ++
    "Set it in your environment or .env file."

/-- `require_env` from `utils/env.py`: `os.getenv` followed by the
falsy check, which rejects both an unset and an empty variable. -/
def require_env (env : Env) (var : String) : Except PyError String :=
  match env.lookup var with
  | none => .error (.runtimeError (missingEnvMsg var))
  | some val => if val = "" then .error (.runtimeError (missingEnvMsg var)) else .ok val

/-- The variable is unset or blank (the cases `require_env` rejects). -/
def envBad (env : Env) (var : String) : Prop :=
  env.lookup var = none ∨ env.lookup var = some ""

instance (env : Env) (var : String) : Decidable (envBad env var) := by
  unfold envBad; infer_instance

/-- The slice of the external `MicrogridConfig` objects this repository
reads: the configured component types. -/
structure MicrogridConfig where
  component_types : List String
deriving DecidableEq, Repr

/-- The world `client_factory.py` runs in: the environment, whether the
configuration directory exists, and the configuration mapping its loader
would produce. -/
structure FactoryWorld where
  env : Env
  configDirExists : Bool
  configs : List (String × MicrogridConfig)
deriving DecidableEq, Repr

/-- `_load_microgrid_configs`: resolve the directory from the
environment (default `toml_directory/`), fail with the
`ConfigDirectoryMissing` `RuntimeError` when it does not exist, and
otherwise produce the (process-lifetime cached) config mapping. -/
def _load_microgrid_configs (w : FactoryWorld) :
    Except PyError (List (String × MicrogridConfig)) :=
  let config_root := (w.env.lookup "MICROGRID_CONFIG_DIR").getD "toml_directory/"
  if w.configDirExists then .ok w.configs
  else .error (.runtimeError ("Microgrid config directory not found: " ++ config_root))

/-- The fields of the external `component_data.MicrogridData` client that
`get_microgrid_client` constructs. -/
structure MicrogridData where
  server_url : String
  auth_key : String
  sign_secret : String
  microgrid_configs : List (String × MicrogridConfig)
deriving DecidableEq, Repr

/-- `get_microgrid_client` from `services/client_factory.py`: read the
three required environment variables in order, load the cached configs,
raise `KeyError` when `str(microgrid_id)` is not a config key, and
otherwise build a fresh client. -/
def get_microgrid_client (w : FactoryWorld) (microgrid_id : Int) :
    Except PyError MicrogridData :=
  match require_env w.env "REPORTING_API_URL" with
  | .error e => .error e
  | .ok server_url =>
  match require_env w.env "API_KEY" with
  | .error e => .error e
  | .ok auth_key =>
  match require_env w.env "API_SECRET" with
  | .error e => .error e
  | .ok sign_secret =>
  match _load_microgrid_configs w with
  | .error e => .error e
  | .ok configs =>
    if (configs.lookup (toString microgrid_id)).isNone then
      .error (.keyError ("Microgrid " ++ toString microgrid_id ++
        " not found in configured microgrids."))
    else
      .ok ⟨server_url, auth_key, sign_secret, configs⟩

/-- `get_component_types`: `_load_microgrid_configs()[str(microgrid_id)]`
(a raw indexing, so an absent key is a `KeyError`). -/
def get_component_types (w : FactoryWorld) (microgrid_id : Int) :
    Except PyError (List String) :=
  match _load_microgrid_configs w with
  | .error e => .error e
  | .ok configs =>
    match configs.lookup (toString microgrid_id) with
    | none => .error (.keyError (toString microgrid_id))
    | some mcfg => .ok mcfg.component_types

/-- Remove every occurrence of the substring `iot`, scanning left to
right (Python `mid.replace("iot", "")`). -/
def stripIotChars : List Char → List Char
  | 'i' :: 'o' :: 't' :: rest => stripIotChars rest
  | c :: rest => c :: stripIotChars rest
  | [] => []

/-- `mid.replace("iot", "")` on strings. -/
def replace_iot (s : String) : String := ⟨stripIotChars s.toList⟩

/-- Python `int(s)`: an optional sign followed by at least one digit;
anything else raises `ValueError`. -/
def pythonInt (s : String) : Except PyError Int :=
  match s.toList with
  | '-' :: rest =>
    if rest ≠ [] ∧ rest.all Char.isDigit then .ok (-(digitsToNat rest : Int))
    else .error (.valueError ("invalid literal for int() with base 10: " ++ s))
  | cs =>
    if cs ≠ [] ∧ cs.all Char.isDigit then .ok (digitsToNat cs : Int)
    else .error (.valueError ("invalid literal for int() with base 10: " ++ s))

/-- Stable ascending insertion (Python `sorted` on integers). -/
def insertAsc (x : Int) : List Int → List Int
  | [] => [x]
  | y :: ys => if x < y then x :: y :: ys else y :: insertAsc x ys

/-- Stable ascending sort (Python `sorted`). -/
def sortAsc (l : List Int) : List Int :=
  l.foldl (fun acc x => insertAsc x acc) []

/-- `get_microgrid_ids` from `services/client_factory.py`:
`sorted(int(mid.replace("iot", "")) for mid in _load_microgrid_configs())`. -/
def get_microgrid_ids (w : FactoryWorld) : Except PyError (List Int) :=
  match _load_microgrid_configs w with
  | .error e => .error e
  | .ok configs =>
    match configs.mapM (fun p => pythonInt (replace_iot p.1)) with
    | .error e => .error e
    | .ok ids => .ok (sortAsc ids)

/-- Modelled from the spec: the spec describes `get_microgrid_ids` as
"stripping a fixed string prefix from each config key"; this definition
follows those words literally (remove `iot` only when it is a prefix),
to be compared with the source definition above. -/
def get_microgrid_ids_specModel (w : FactoryWorld) : Except PyError (List Int) :=
  match _load_microgrid_configs w with
  | .error e => .error e
  | .ok configs =>
    match configs.mapM (fun p => pythonInt (
        match p.1.toList with
        | 'i' :: 'o' :: 't' :: rest => (⟨rest⟩ : String)
        | cs => (⟨cs⟩ : String))) with
    | .error e => .error e
    | .ok ids => .ok (sortAsc ids)

/-- The kind of Streamlit cache a function is wrapped in. -/
inductive CacheKind where
  | data
  | resource
deriving DecidableEq, Repr

/-- The arguments of a Streamlit cache decorator as they appear in the
source. -/
structure CacheSpec where
  kind : CacheKind
  ttlSeconds : Option Nat
deriving DecidableEq, Repr

/-- `@st.cache_resource(show_spinner=False)` on `_load_microgrid_configs`:
a resource cache with no expiry (process lifetime). -/
def load_microgrid_configs_cache : CacheSpec := ⟨.resource, none⟩

/-- `@st.cache_data(show_spinner=False)` on `get_microgrid_ids`: a data
cache declared without any `ttl` argument. -/
def get_microgrid_ids_cache : CacheSpec := ⟨.data, none⟩

/-- `@st.cache_data(ttl=300, show_spinner=False)` on
`get_microgrid_data`: a data cache with a 300 second TTL. -/
def get_microgrid_data_cache : CacheSpec := ⟨.data, some 300⟩

/-! ## `services/data_service.py` -/

/-- The tabular data returned by the upstream client, abstracted to its
rows; `pandas.DataFrame()` is the empty list and `df.empty` is
emptiness of the rows. -/
abbrev DataFrame := List (List Rat)

/-- What the awaited upstream request produces: a value (possibly `None`)
or an `asyncio.TimeoutError` from `asyncio.wait_for`. -/
inductive UpstreamOutcome where
  | ret (r : Option DataFrame)
  | timedOut
deriving DecidableEq, Repr

/-- The world `data_service.py` runs in: the factory world, whether an
asyncio event loop is already running in the calling context, and the
outcome of the one upstream request (which abstracts the
`ac_active_power` call together with its resolution and timeout
arguments). -/
structure FetchWorld where
  factory : FactoryWorld
  loopRunning : Bool
  upstream : UpstreamOutcome
deriving DecidableEq, Repr

/-- `if df is None or (hasattr(df, "empty") and df.empty): return
pd.DataFrame()` — absence and emptiness both normalize to the explicit
empty dataframe. -/
def normalizeFetchResult (r : Option DataFrame) : DataFrame :=
  match r with
  | none => []
  | some df => if df.isEmpty then [] else df

/-- `fetch_microgrid_data` from `services/data_service.py`: validate the
range, build a client, resolve the component types, await the upstream
request, and normalize its result.  The second component counts the
upstream requests issued by the call. -/
def fetch_microgrid_data (w : FetchWorld) (microgrid_id : Int)
    (start_date end_date : DateLike) : Except PyError DataFrame × Nat :=
  match validate_range start_date end_date with
  | .error e => (.error e, 0)
  | .ok _ =>
    match get_microgrid_client w.factory microgrid_id with
    | .error e => (.error e, 0)
    | .ok _client =>
      match get_component_types w.factory microgrid_id with
      | .error e => (.error e, 0)
      | .ok _component_types =>
        match w.upstream with
        | .timedOut => (.error .timeoutError, 1)
        | .ret r => (.ok (normalizeFetchResult r), 1)

/-- The message of the `RuntimeError` raised on a reentrant sync call. -/
def reentrantMsg : String :=
  "get_microgrid_data() called from within an active event loop. " ++
    "Use `await fetch_microgrid_data(...)` in async contexts."

/-- The `ReentrantAsyncCall` error of the spec. -/
def ReentrantAsyncCall : PyError := .runtimeError reentrantMsg

/-- `get_microgrid_data` from `services/data_service.py` (the body the
`st.cache_data` decorator wraps): `asyncio.get_running_loop()` succeeding
means an active loop, so the call raises; otherwise `asyncio.run` drives
`fetch_microgrid_data` to completion. -/
def get_microgrid_data (w : FetchWorld) (microgrid_id : Int)
    (start_date end_date : DateLike) : Except PyError DataFrame × Nat :=
  if w.loopRunning then (.error ReentrantAsyncCall, 0)
  else fetch_microgrid_data w microgrid_id start_date end_date

/-! ## `components/sidebar_inputs.py`

Streamlit session state is embedded as an association list from keys to
stored values.  A form widget with a `key` returns the value stored under
that key when one is present and its initial value otherwise; the submit
flag of the form is an input of a render step.  The embedding covers the
domain the page exercises: a nonempty id list and nonempty option lists
(a Streamlit selectbox over empty options returns `None` instead). -/

/-- The selection dictionary returned by the collector. -/
structure Selection where
  microgrid_id : Int
  start_date : Date
  end_date : Date
  timezone : String
  resolution : String
deriving DecidableEq, Repr

/-- A value storable in Streamlit session state. -/
inductive SVal where
  | int (n : Int)
  | date (d : Date)
  | str (s : String)
  | sel (s : Selection)
deriving DecidableEq, Repr

/-- Streamlit session state. -/
abbrev SessionState := List (String × SVal)

/-- Read an integer-valued entry. -/
def lookupInt (st : SessionState) (k : String) : Option Int :=
  match st.lookup k with | some (.int n) => some n | _ => none

/-- Read a date-valued entry. -/
def lookupDate (st : SessionState) (k : String) : Option Date :=
  match st.lookup k with | some (.date d) => some d | _ => none

/-- Read a string-valued entry. -/
def lookupStr (st : SessionState) (k : String) : Option String :=
  match st.lookup k with | some (.str s) => some s | _ => none

/-- Store under a key, overwriting an existing binding. -/
def setKey : SessionState → String → SVal → SessionState
  | [], k, v => [(k, v)]
  | (k0, v0) :: rest, k, v =>
    if k0 = k then (k, v) :: rest else (k0, v0) :: setKey rest k v

/-- `TIMEZONE_OPTIONS` from `components/sidebar_inputs.py`. -/
def TIMEZONE_OPTIONS : List String :=
  ["Europe/Berlin", "Europe/Vienna", "Europe/Zurich", "Europe/Amsterdam",
   "Europe/Brussels", "Europe/Copenhagen", "UTC"]

/-- The keyword arguments of `collect_sidebar_inputs`, with the defaults
of the source.  The field `key_pfx` embeds the argument the source calls
by the name of the widget-key name space. -/
structure SidebarArgs where
  default_start : Date
  default_end : Date
  resolution_options : List String := ["15min", "30min", "1hour", "4hour"]
  default_resolution : String := "15min"
  timezone_options : List String := TIMEZONE_OPTIONS
  default_timezone : String := "Europe/Berlin"
  key_pfx : String := ""
deriving DecidableEq, Repr

/-- `next((idx for idx, option in enumerate(options) if option == x), 0)`. -/
def firstIndexOrZero (opts : List String) (x : String) : Nat :=
  match opts.findIdx? (fun o => o = x) with
  | some i => i
  | none => 0

/-- Python `min` on two dates (the first one on ties). -/
def minDate (a b : Date) : Date :=
  if a.toOrdinal ≤ b.toOrdinal then a else b

/-- The namespaced state key:
`f"{key_prefix}applied_filters" if key_prefix else "applied_filters"`. -/
def state_key (kp : String) : String :=
  if kp = "" then "applied_filters" else kp ++ "applied_filters"

/-- `current_selection`: the current field values of the rendered form.
Each widget shows the session value stored under its namespaced key when
present and its initial value otherwise.  The initial values follow the
source: the first configured id, `default_start` (the `or today - 7`
fallback is dead code because a `date` is never falsy), `default_end`
clamped to today by `max_value`, and the option selected by
`firstIndexOrZero` for the timezone and the resolution. -/
def renderedSelection (st : SessionState) (args : SidebarArgs) (ids : List Int)
    (today : Date) : Selection :=
  { microgrid_id := (lookupInt st (args.key_pfx ++ "microgrid_id")).getD (ids.headD 0)
  , start_date := (lookupDate st (args.key_pfx ++ "start_date")).getD args.default_start
  , end_date := (lookupDate st (args.key_pfx ++ "end_date")).getD
      (minDate args.default_end today)
  , timezone := (lookupStr st (args.key_pfx ++ "timezone")).getD
      (args.timezone_options.getD
        (firstIndexOrZero args.timezone_options args.default_timezone) "")
  , resolution := (lookupStr st (args.key_pfx ++ "resolution")).getD
      (args.resolution_options.getD
        (firstIndexOrZero args.resolution_options args.default_resolution) "") }

/-- The default Selection: the rendered field values of a form whose
widget keys are all fresh. -/
def defaultSelection (args : SidebarArgs) (ids : List Int) (today : Date) : Selection :=
  { microgrid_id := ids.headD 0
  , start_date := args.default_start
  , end_date := minDate args.default_end today
  , timezone := args.timezone_options.getD
      (firstIndexOrZero args.timezone_options args.default_timezone) ""
  , resolution := args.resolution_options.getD
      (firstIndexOrZero args.resolution_options args.default_resolution) "" }

/-- `collect_sidebar_inputs` from `components/sidebar_inputs.py`: render
the form (producing `current_selection`), store it under the namespaced
state key on submit or when nothing is stored yet, and return the stored
selection.  The pair also carries the session state after the render. -/
def collect_sidebar_inputs (st : SessionState) (args : SidebarArgs) (ids : List Int)
    (today : Date) (submitted : Bool) : Except PyError Selection × SessionState :=
  let sk := state_key args.key_pfx
  let current := renderedSelection st args ids today
  let st2 :=
    if submitted || (st.lookup sk).isNone then setKey st sk (.sel current) else st
  match st2.lookup sk with
  | some (.sel s) => (.ok s, st2)
  | some _ => (.error (.typeError sk), st2)
  | none => (.error (.keyError sk), st2)

/-! ## Theorems for the claims -/

/-- C2: `validate_range(start, end)` raises `InvalidRange` (a `ValueError`)
if and only if the normalized end instant is less than or equal to the
normalized start instant (equal instants are rejected); for every
chronological pair with `start < end` it returns exactly the pair of
normalized instants, so the difference of the returned instants is the
literal difference of the normalized inputs.  The embedding is a pure
function, so the call has no side effects. -/
theorem C2_validate_range (start endv : DateLike) (sd ed : DateTime)
    (hs : pd_to_datetime start = .ok sd) (he : pd_to_datetime endv = .ok ed) :
    (validate_range start endv = .error InvalidRange ↔ ed.toSeconds ≤ sd.toSeconds) ∧
    (sd.toSeconds < ed.toSeconds → validate_range start endv = .ok (sd, ed)) := by
  unfold validate_range
  simp only [hs, he]
  by_cases hle : ed.toSeconds ≤ sd.toSeconds
  · rw [if_pos hle]
    exact ⟨⟨fun _ => hle, fun _ => rfl⟩, fun hlt => absurd hle (Nat.not_le_of_lt hlt)⟩
  · rw [if_neg hle]
    exact ⟨⟨fun h => Except.noConfusion h, fun h => absurd h hle⟩, fun _ => rfl⟩

/-- Witness for C2 at the inputs named by the spec: start `2024-01-01`
and end `2024-01-02T12:00` validate to instants 1 day 12 hours
(129600 seconds) apart, and an equal pair raises `InvalidRange`. -/
theorem C2_validate_range_witness :
    validate_range (.ofStr "2024-01-01") (.ofStr "2024-01-02T12:00") =
      .ok (⟨⟨2024, 1, 1⟩, 0, 0, 0⟩, ⟨⟨2024, 1, 2⟩, 12, 0, 0⟩) ∧
    DateTime.toSeconds ⟨⟨2024, 1, 2⟩, 12, 0, 0⟩ -
      DateTime.toSeconds ⟨⟨2024, 1, 1⟩, 0, 0, 0⟩ = 129600 ∧
    validate_range (.ofStr "2024-01-02") (.ofStr "2024-01-02") = .error InvalidRange :=
  ⟨(C2_validate_range _ _ _ _ (by decide) (by decide)).2 (by decide),
   by decide,
   (C2_validate_range (.ofStr "2024-01-02") (.ofStr "2024-01-02")
      ⟨⟨2024, 1, 2⟩, 0, 0, 0⟩ ⟨⟨2024, 1, 2⟩, 0, 0, 0⟩
      (by decide) (by decide)).1.mpr (by decide)⟩

/-- C9: `to_iso8601` passes strings through unchanged (hence is idempotent
on already-ISO8601 strings), maps a date-only value to the rendered
midnight-of-day instant of that date, passes already-instant (datetime)
values through via `isoformat`, and fails with `UnsupportedType`
(a `TypeError`) on a non-date-like input such as a number. -/
theorem C9_to_iso8601 :
    (∀ s : String, (parseIso8601 s).isSome → to_iso8601 (.ofStr s) = .ok s) ∧
    (∀ d : Date, to_iso8601 (.ofDate d) = .ok (DateTime.isoformat ⟨d, 0, 0, 0⟩)) ∧
    (∀ t : DateTime, to_iso8601 (.ofDatetime t) = .ok t.isoformat) ∧
    (∀ n : Int, to_iso8601 (.ofNumber n) =
      .error (.typeError ("Invalid date-like value: " ++ toString n))) :=
  ⟨fun _ _ => rfl, fun _ => rfl, fun _ => rfl, fun _ => rfl⟩

/-- Witness for C9 at concrete inputs: an ISO8601 string is returned
unchanged, the date 2024-01-02 renders as its midnight instant (which
parses back to exactly that midnight datetime), a datetime passes
through, and the number 42 raises the `TypeError`. -/
theorem C9_to_iso8601_witness :
    to_iso8601 (.ofStr "2024-01-02T12:00") = .ok "2024-01-02T12:00" ∧
    to_iso8601 (.ofDate ⟨2024, 1, 2⟩) = .ok (DateTime.isoformat ⟨⟨2024, 1, 2⟩, 0, 0, 0⟩) ∧
    DateTime.isoformat ⟨⟨2024, 1, 2⟩, 0, 0, 0⟩ = "2024-01-02T00:00:00" ∧
    parseIso8601 "2024-01-02T00:00:00" = some ⟨⟨2024, 1, 2⟩, 0, 0, 0⟩ ∧
    to_iso8601 (.ofNumber 42) = .error (.typeError "Invalid date-like value: 42") :=
  ⟨C9_to_iso8601.1 "2024-01-02T12:00" (by decide),
   C9_to_iso8601.2.1 ⟨2024, 1, 2⟩,
   by decide, by decide, by decide⟩

/-! ### Helper lemmas for the percentage bar -/

/-- Looking up in the sanitized mapping is looking up in the raw mapping
followed by the None-to-zero default. -/
theorem lookup_cleanPoints (dp : List (String × Option Rat)) (k : String) :
    (cleanPoints dp).lookup k = (dp.lookup k).map (fun v => v.getD 0) := by
  induction dp with
  | nil => rfl
  | cons p rest ih =>
    simp only [cleanPoints, List.map_cons, List.lookup]
    cases h : (k == p.1) with
    | true => rfl
    | false => simpa [cleanPoints] using ih

/-- Stable descending insertion preserves the members. -/
theorem mem_insertDescBy {α : Type} (f : α → Rat) (x a : α) (l : List α) :
    a ∈ insertDescBy f x l ↔ a ∈ x :: l := by
  induction l with
  | nil => simp [insertDescBy]
  | cons y ys ih =>
    simp only [insertDescBy]
    by_cases h : f y < f x
    · simp [h]
    · simp only [if_neg h, List.mem_cons, ih, List.mem_cons]
      tauto

/-- The stable descending sort preserves the members. -/
theorem mem_sortDescBy {α : Type} (f : α → Rat) (l : List α) (a : α) :
    a ∈ sortDescBy f l ↔ a ∈ l := by
  have key : ∀ (m acc : List α),
      a ∈ m.foldl (fun acc x => insertDescBy f x acc) acc ↔ a ∈ acc ∨ a ∈ m := by
    intro m
    induction m with
    | nil => intro acc; simp
    | cons x xs ih =>
      intro acc
      simp only [List.foldl_cons, ih, mem_insertDescBy, List.mem_cons]
      tauto
  simpa [sortDescBy] using key l []

/-- Shape of the figure in the positive-total case. -/
theorem plot_percentage_bar_pos (dp : List (String × Option Rat)) (tk : String) (t : Rat)
    (ht : (cleanPoints dp).lookup tk = some t) (hpos : 0 < t) :
    plot_percentage_bar dp tk =
      .ok (.bar (sortDescBy (fun x => x.2.1) (segWithPct (cleanPoints dp) tk t)) t) := by
  simp only [plot_percentage_bar, ht]
  rw [if_neg (not_le.mpr hpos)]

/-- Members of `cleanPoints dp` have keys of `dp`. -/
theorem key_of_mem_cleanPoints {dp : List (String × Option Rat)} {p : String × Rat}
    (h : p ∈ cleanPoints dp) : ∃ q ∈ dp, p.1 = q.1 := by
  obtain ⟨q, hq, rfl⟩ := List.mem_map.mp h
  exact ⟨q, hq, rfl⟩

/-- On a mapping without the key, dict assignment is an append. -/
theorem dictSet_of_not_mem {l : List (String × Rat)} {k : String} (v : Rat)
    (h : ∀ p ∈ l, p.1 ≠ k) : dictSet l k v = l ++ [(k, v)] := by
  induction l with
  | nil => rfl
  | cons p rest ih =>
    simp only [dictSet]
    rw [if_neg (h p (List.mem_cons_self p rest))]
    rw [ih (fun q hq => h q (List.mem_cons_of_mem p hq))]
    rfl

/-- C4: `plot_percentage_bar` raises `ValueError` exactly when `total_key`
is absent from the mapping (on any present key it returns a figure);
when the sanitized total is not positive it returns the explicit no-data
placeholder, which has no segments; and on the mapping
`{Total (kWh): 100, A: 40, B: 30}` the rendered segments are
`A = 40`, `B = 30`, `Others = 30` percent, ordered descending by value. -/
theorem C4_plot_percentage_bar (dp : List (String × Option Rat)) (tk : String) :
    (dp.lookup tk = none →
      plot_percentage_bar dp tk =
        .error (.valueError ("Total key " ++ tk ++ " not found."))) ∧
    (∀ v, dp.lookup tk = some v → ∃ fig, plot_percentage_bar dp tk = .ok fig) ∧
    (∀ v, dp.lookup tk = some v → v.getD 0 ≤ 0 →
      plot_percentage_bar dp tk = .ok (.noData noDataText)) ∧
    plot_percentage_bar [("Total (kWh)", some 100), ("A", some 40), ("B", some 30)]
        "Total (kWh)" =
      .ok (.bar [("A", 40, 40), ("B", 30, 30), ("Others", 30, 30)] 100) := by
  refine ⟨?_, ?_, ?_, by decide⟩
  · intro h
    simp only [plot_percentage_bar, lookup_cleanPoints, h, Option.map_none']
  · intro v h
    simp only [plot_percentage_bar, lookup_cleanPoints, h, Option.map_some']
    by_cases hle : v.getD 0 ≤ 0
    · exact ⟨_, by rw [if_pos hle]⟩
    · exact ⟨_, by rw [if_neg hle]⟩
  · intro v h hle
    simp only [plot_percentage_bar, lookup_cleanPoints, h, Option.map_some']
    rw [if_pos hle]

/-- Witness for C4: a mapping without the total key raises the
`ValueError`, the example mapping of the spec renders a figure, and a
zero total degenerates to the no-data placeholder. -/
theorem C4_plot_percentage_bar_witness :
    plot_percentage_bar [("A", some 40)] "Total (kWh)" =
      .error (.valueError ("Total key " ++ "Total (kWh)" ++ " not found.")) ∧
    (∃ fig, plot_percentage_bar
      [("Total (kWh)", some 100), ("A", some 40), ("B", some 30)] "Total (kWh)" = .ok fig) ∧
    plot_percentage_bar [("Total (kWh)", some 0), ("A", some 40)] "Total (kWh)" =
      .ok (.noData noDataText) :=
  ⟨(C4_plot_percentage_bar _ _).1 (by decide),
   (C4_plot_percentage_bar _ _).2.1 (some 100) (by decide),
   (C4_plot_percentage_bar _ _).2.2.1 (some 0) (by decide) (by decide)⟩

/-- C5: in the positive-total case the `Others` bucket carries exactly
`leftoverOf total used = max(0, max(total, used) - used)` (and is absent
when that leftover is zero), every rendered percentage is computed
against `display_base = max(total, used)`, and whenever `used > total`
the leftover is `0` and the base silently becomes `used`. -/
theorem C5_percentage_bar_leftover (dp : List (String × Option Rat)) (tk : String) (t : Rat)
    (ht : (cleanPoints dp).lookup tk = some t) (hpos : 0 < t)
    (hO : ∀ p ∈ dp, p.1 ≠ "Others") :
    ∃ segs,
      plot_percentage_bar dp tk = .ok (.bar segs t) ∧
      (0 < leftoverOf t (usedSum (cleanPoints dp) tk) →
        ("Others", leftoverOf t (usedSum (cleanPoints dp) tk),
          leftoverOf t (usedSum (cleanPoints dp) tk) /
            max t (usedSum (cleanPoints dp) tk) * 100) ∈ segs) ∧
      (leftoverOf t (usedSum (cleanPoints dp) tk) = 0 → ∀ x ∈ segs, x.1 ≠ "Others") ∧
      (∀ x ∈ segs, x.2.2 = x.2.1 / max t (usedSum (cleanPoints dp) tk) * 100) ∧
      (t < usedSum (cleanPoints dp) tk →
        leftoverOf t (usedSum (cleanPoints dp) tk) = 0 ∧
        max t (usedSum (cleanPoints dp) tk) = usedSum (cleanPoints dp) tk) := by
  set clean := cleanPoints dp with hclean
  set u := usedSum clean tk with hu
  set base := max t u with hbase
  have hb : (0 : Rat) < base := lt_of_lt_of_le hpos (le_max_left _ _)
  have hkeys : ∀ p ∈ positiveSegments clean tk, p.1 ≠ "Others" := by
    intro p hp
    obtain ⟨q, hq, he⟩ := key_of_mem_cleanPoints (List.mem_filter.mp hp).1
    exact he ▸ hO q hq
  refine ⟨_, plot_percentage_bar_pos dp tk t ht hpos, ?_, ?_, ?_, ?_⟩
  · intro hL
    rw [mem_sortDescBy]
    simp only [segWithPct, segmentsWithOthers, ← hu, ← hbase, if_pos hL]
    rw [dictSet_of_not_mem _ hkeys, List.map_append]
    refine List.mem_append_right _ ?_
    simp [if_pos hb]
  · intro hL0 x hx
    rw [mem_sortDescBy] at hx
    simp only [segWithPct, segmentsWithOthers, ← hu, ← hbase, hL0, lt_irrefl,
      if_neg (lt_irrefl (0 : Rat))] at hx
    obtain ⟨p, hp, rfl⟩ := List.mem_map.mp hx
    have hpc : p ∈ clean := List.mem_filter.mp hp |>.1
    obtain ⟨q, hq, he⟩ := key_of_mem_cleanPoints hpc
    simpa [he] using hO q hq
  · intro x hx
    rw [mem_sortDescBy] at hx
    simp only [segWithPct, ← hu, ← hbase] at hx
    obtain ⟨p, hp, rfl⟩ := List.mem_map.mp hx
    simp [if_pos hb]
  · intro hlt
    have hbu : base = u := max_eq_right hlt.le
    refine ⟨?_, hbu⟩
    simp [leftoverOf, ← hu, max_eq_right hlt.le]

/-- Witness for C5: on the example mapping the leftover is `30`, and the
rendered segments contain `("Others", 30, 30)`. -/
theorem C5_percentage_bar_leftover_witness :
    leftoverOf 100 (usedSum (cleanPoints
      [("Total (kWh)", some 100), ("A", some 40), ("B", some 30)]) "Total (kWh)") = 30 ∧
    ∃ segs,
      plot_percentage_bar [("Total (kWh)", some 100), ("A", some 40), ("B", some 30)]
        "Total (kWh)" = .ok (.bar segs 100) ∧ ("Others", 30, 30) ∈ segs := by
  refine ⟨by decide, ?_⟩
  obtain ⟨segs, h1, h2, _, _, _⟩ := C5_percentage_bar_leftover
    [("Total (kWh)", some 100), ("A", some 40), ("B", some 30)] "Total (kWh)" 100
    (by decide) (by decide) (by decide)
  refine ⟨segs, h1, ?_⟩
  rw [show leftoverOf 100 (usedSum (cleanPoints
      [("Total (kWh)", some 100), ("A", some 40), ("B", some 30)]) "Total (kWh)") = 30
    from by decide] at h2
  rw [show max (100 : Rat) (usedSum (cleanPoints
      [("Total (kWh)", some 100), ("A", some 40), ("B", some 30)]) "Total (kWh)") = 100
    from by decide] at h2
  rw [show (30 : Rat) / 100 * 100 = 30 from by decide] at h2
  exact h2 (by decide)

/-- C10: in the positive-total case — on mappings whose keys do not
collide with the name of the synthetic `Others` bucket — every rendered
segment other than `Others` is a strictly positive non-total entry of
the sanitized mapping, every strictly positive non-total entry is
rendered, the `used` sum ranges over all non-total entries whatever
their sign, and adding the negative entry `C = -10` to the example
mapping renders no `C` segment while enlarging `Others` from 30 to 40. -/
theorem C10_percentage_bar_positive_only (dp : List (String × Option Rat)) (tk : String)
    (t : Rat) (ht : (cleanPoints dp).lookup tk = some t) (hpos : 0 < t)
    (hO : ∀ p ∈ dp, p.1 ≠ "Others") :
    ∃ segs,
      plot_percentage_bar dp tk = .ok (.bar segs t) ∧
      (∀ x ∈ segs, x.1 = "Others" ∨
        ((x.1, x.2.1) ∈ cleanPoints dp ∧ x.1 ≠ tk ∧ 0 < x.2.1)) ∧
      (∀ k v, (k, v) ∈ cleanPoints dp → k ≠ tk → 0 < v → ∃ pct, (k, v, pct) ∈ segs) ∧
      usedSum (cleanPoints dp) tk =
        (((cleanPoints dp).filter (fun p => p.1 ≠ tk)).map Prod.snd).sum ∧
      plot_percentage_bar
          [("Total (kWh)", some 100), ("A", some 40), ("B", some 30), ("C", some (-10))]
          "Total (kWh)" =
        .ok (.bar [("A", 40, 40), ("Others", 40, 40), ("B", 30, 30)] 100) := by
  set clean := cleanPoints dp with hclean
  set u := usedSum clean tk with hu
  set base := max t u with hbase
  have hb : (0 : Rat) < base := lt_of_lt_of_le hpos (le_max_left _ _)
  have hkeys : ∀ p ∈ positiveSegments clean tk, p.1 ≠ "Others" := by
    intro p hp
    obtain ⟨q, hq, he⟩ := key_of_mem_cleanPoints (List.mem_filter.mp hp).1
    exact he ▸ hO q hq
  refine ⟨_, plot_percentage_bar_pos dp tk t ht hpos, ?_, ?_, rfl, by decide⟩
  · intro x hx
    rw [mem_sortDescBy] at hx
    simp only [segWithPct, segmentsWithOthers, ← hu, ← hbase] at hx
    obtain ⟨p, hp, rfl⟩ := List.mem_map.mp hx
    by_cases hL : 0 < leftoverOf t u
    · rw [if_pos hL, dictSet_of_not_mem _ hkeys] at hp
      rcases List.mem_append.mp hp with hp1 | hp2
      · have := List.mem_filter.mp hp1
        right
        refine ⟨this.1, ?_⟩
        simpa using of_decide_eq_true this.2
      · left
        simpa using List.mem_singleton.mp hp2 ▸ rfl
    · rw [if_neg hL] at hp
      have := List.mem_filter.mp hp
      right
      refine ⟨this.1, ?_⟩
      simpa using of_decide_eq_true this.2
  · intro k v hkv hk hv
    have hmem : (k, v) ∈ positiveSegments clean tk := by
      refine List.mem_filter.mpr ⟨hkv, ?_⟩
      simp [hk, hv]
    have hmem2 : (k, v) ∈ segmentsWithOthers clean tk t := by
      simp only [segmentsWithOthers, ← hu]
      by_cases hL : 0 < leftoverOf t u
      · rw [if_pos hL, dictSet_of_not_mem _ hkeys]
        exact List.mem_append_left _ hmem
      · rw [if_neg hL]; exact hmem
    refine ⟨(if 0 < base then v / base * 100 else 0), ?_⟩
    rw [mem_sortDescBy]
    simp only [segWithPct, ← hu, ← hbase]
    exact List.mem_map.mpr ⟨(k, v), hmem2, rfl⟩

/-- Witness for C10: on the example with the negative entry, the figure
is rendered and the positive entry `A = 40` appears as a segment. -/
theorem C10_percentage_bar_positive_only_witness :
    ∃ segs,
      plot_percentage_bar
          [("Total (kWh)", some 100), ("A", some 40), ("B", some 30), ("C", some (-10))]
          "Total (kWh)" = .ok (.bar segs 100) ∧
        (∃ pct, ("A", 40, pct) ∈ segs) := by
  obtain ⟨segs, h1, _, hb, _, _⟩ := C10_percentage_bar_positive_only
    [("Total (kWh)", some 100), ("A", some 40), ("B", some 30), ("C", some (-10))]
    "Total (kWh)" 100 (by decide) (by decide) (by decide)
  exact ⟨segs, h1, hb "A" 40 (by decide) (by decide) (by decide)⟩

/-! ### Helper lemmas for the client factory and data service -/

/-- A bad (unset or blank) variable makes `require_env` raise. -/
theorem require_env_bad {env : Env} {var : String} (h : envBad env var) :
    require_env env var = .error (.runtimeError (missingEnvMsg var)) := by
  unfold require_env
  rcases h with h | h <;> rw [h]
  simp

/-- A good variable makes `require_env` return a value. -/
theorem require_env_good {env : Env} {var : String} (h : ¬ envBad env var) :
    ∃ v, require_env env var = .ok v := by
  unfold require_env
  unfold envBad at h
  push_neg at h
  cases hl : env.lookup var with
  | none => exact absurd hl h.1
  | some v =>
    refine ⟨v, ?_⟩
    show (if v = "" then Except.error (PyError.runtimeError (missingEnvMsg var))
      else Except.ok v) = Except.ok v
    rw [if_neg ?_]
    intro he
    exact h.2 (he ▸ hl)

/-- When the config directory exists the loader returns the mapping. -/
theorem load_ok {w : FactoryWorld} (h : w.configDirExists = true) :
    _load_microgrid_configs w = .ok w.configs := by
  simp [_load_microgrid_configs, h]

/-- Stable ascending insertion preserves the members. -/
theorem mem_insertAsc (x b : Int) (l : List Int) : b ∈ insertAsc x l ↔ b ∈ x :: l := by
  induction l with
  | nil => simp [insertAsc]
  | cons y ys ih =>
    simp only [insertAsc]
    by_cases h : x < y
    · simp [h]
    · simp only [if_neg h, List.mem_cons, ih, List.mem_cons]
      tauto

/-- Stable ascending insertion permutes consing. -/
theorem insertAsc_perm (x : Int) (l : List Int) : (insertAsc x l).Perm (x :: l) := by
  induction l with
  | nil => rfl
  | cons y ys ih =>
    simp only [insertAsc]
    by_cases h : x < y
    · rw [if_pos h]
    · rw [if_neg h]
      exact (ih.cons y).trans (List.Perm.swap x y ys)

/-- Stable ascending insertion preserves sortedness. -/
theorem sorted_insertAsc (x : Int) (l : List Int) (h : l.Sorted (· ≤ ·)) :
    (insertAsc x l).Sorted (· ≤ ·) := by
  induction l with
  | nil => simp [insertAsc]
  | cons y ys ih =>
    have hs := List.sorted_cons.mp h
    simp only [insertAsc]
    by_cases hxy : x < y
    · rw [if_pos hxy]
      refine List.sorted_cons.mpr ⟨?_, h⟩
      intro b hb
      rcases List.mem_cons.mp hb with rfl | hb
      · exact hxy.le
      · exact hxy.le.trans (hs.1 b hb)
    · rw [if_neg hxy]
      refine List.sorted_cons.mpr ⟨?_, ih hs.2⟩
      intro b hb
      rcases List.mem_cons.mp ((mem_insertAsc x b ys).mp hb) with rfl | hb2
      · exact not_lt.mp hxy
      · exact hs.1 b hb2

/-- `sortAsc` permutes its input. -/
theorem sortAsc_perm (l : List Int) : (sortAsc l).Perm l := by
  have key : ∀ (m acc : List Int),
      (m.foldl (fun acc x => insertAsc x acc) acc).Perm (m ++ acc) := by
    intro m
    induction m with
    | nil => intro acc; simp [List.Perm.refl]
    | cons x xs ih =>
      intro acc
      exact (ih _).trans
        ((List.Perm.append_left xs (insertAsc_perm x acc)).trans List.perm_middle)
  simpa [sortAsc] using key l []

/-- `sortAsc` sorts ascending. -/
theorem sortAsc_sorted (l : List Int) : (sortAsc l).Sorted (· ≤ ·) := by
  have key : ∀ (m acc : List Int), acc.Sorted (· ≤ ·) →
      (m.foldl (fun acc x => insertAsc x acc) acc).Sorted (· ≤ ·) := by
    intro m
    induction m with
    | nil => intro acc h; exact h
    | cons x xs ih => intro acc h; exact ih _ (sorted_insertAsc x acc h)
  exact key l [] (by simp)

/-- C7: `get_microgrid_client` raises `MissingEnvironment` (a
`RuntimeError` naming the missing variable) whenever any of the three
required environment variables is unset or blank; with all three set and
the config mapping loaded it raises `UnknownMicrogrid` (a `KeyError`)
exactly when `str(microgrid_id)` is not a key of the mapping, and
otherwise returns a client instance. -/
theorem C7_get_microgrid_client (w : FactoryWorld) (mid : Int) :
    ((envBad w.env "REPORTING_API_URL" ∨ envBad w.env "API_KEY" ∨
        envBad w.env "API_SECRET") →
      ∃ var, var ∈ ["REPORTING_API_URL", "API_KEY", "API_SECRET"] ∧ envBad w.env var ∧
        get_microgrid_client w mid = .error (.runtimeError (missingEnvMsg var))) ∧
    (¬ envBad w.env "REPORTING_API_URL" → ¬ envBad w.env "API_KEY" →
      ¬ envBad w.env "API_SECRET" → w.configDirExists = true →
      (w.configs.lookup (toString mid) = none →
        get_microgrid_client w mid = .error (.keyError ("Microgrid " ++ toString mid ++
          " not found in configured microgrids."))) ∧
      (∀ cfg, w.configs.lookup (toString mid) = some cfg →
        ∃ c, get_microgrid_client w mid = .ok c)) := by
  constructor
  · intro hbad
    by_cases h1 : envBad w.env "REPORTING_API_URL"
    · refine ⟨"REPORTING_API_URL", by simp, h1, ?_⟩
      simp only [get_microgrid_client, require_env_bad h1]
    · obtain ⟨v1, hv1⟩ := require_env_good h1
      by_cases h2 : envBad w.env "API_KEY"
      · refine ⟨"API_KEY", by simp, h2, ?_⟩
        simp only [get_microgrid_client, hv1, require_env_bad h2]
      · obtain ⟨v2, hv2⟩ := require_env_good h2
        have h3 : envBad w.env "API_SECRET" := (hbad.resolve_left h1).resolve_left h2
        refine ⟨"API_SECRET", by simp, h3, ?_⟩
        simp only [get_microgrid_client, hv1, hv2, require_env_bad h3]
  · intro h1 h2 h3 hdir
    obtain ⟨v1, hv1⟩ := require_env_good h1
    obtain ⟨v2, hv2⟩ := require_env_good h2
    obtain ⟨v3, hv3⟩ := require_env_good h3
    constructor
    · intro hnone
      simp only [get_microgrid_client, hv1, hv2, hv3, load_ok hdir, hnone]
      rfl
    · intro cfg hsome
      simp only [get_microgrid_client, hv1, hv2, hv3, load_ok hdir, hsome]
      exact ⟨_, by rw [if_neg (by simp [hsome])]⟩

/-- Witness for C7: with the server URL unset the call raises the
`MissingEnvironment` error; with all variables set, an unknown id raises
the `KeyError` and a configured id returns a client. -/
theorem C7_get_microgrid_client_witness :
    (∃ var, var ∈ ["REPORTING_API_URL", "API_KEY", "API_SECRET"] ∧
      envBad [("API_KEY", "k"), ("API_SECRET", "s")] var ∧
      get_microgrid_client ⟨[("API_KEY", "k"), ("API_SECRET", "s")], true,
        [("7", ⟨["grid"]⟩)]⟩ 7 = .error (.runtimeError (missingEnvMsg var))) ∧
    get_microgrid_client ⟨[("REPORTING_API_URL", "u"), ("API_KEY", "k"),
        ("API_SECRET", "s")], true, [("7", ⟨["grid"]⟩)]⟩ 8 =
      .error (.keyError ("Microgrid " ++ toString (8 : Int) ++
        " not found in configured microgrids.")) ∧
    (∃ c, get_microgrid_client ⟨[("REPORTING_API_URL", "u"), ("API_KEY", "k"),
        ("API_SECRET", "s")], true, [("7", ⟨["grid"]⟩)]⟩ 7 = .ok c) :=
  ⟨(C7_get_microgrid_client ⟨[("API_KEY", "k"), ("API_SECRET", "s")], true,
      [("7", ⟨["grid"]⟩)]⟩ 7).1 (Or.inl (by decide)),
   ((C7_get_microgrid_client ⟨[("REPORTING_API_URL", "u"), ("API_KEY", "k"),
      ("API_SECRET", "s")], true, [("7", ⟨["grid"]⟩)]⟩ 8).2
     (by decide) (by decide) (by decide) rfl).1 (by decide),
   ((C7_get_microgrid_client ⟨[("REPORTING_API_URL", "u"), ("API_KEY", "k"),
      ("API_SECRET", "s")], true, [("7", ⟨["grid"]⟩)]⟩ 7).2
     (by decide) (by decide) (by decide) rfl).2 ⟨["grid"]⟩ (by decide)⟩

/-- C8 counterexample: the claim describes the id derivation as stripping
a fixed string prefix and the cache as having a bounded TTL.  On the
config key `1iot` the code (which removes every occurrence of `iot`)
returns id 1 while the prefix-stripping reading fails to parse an
integer, and the data cache on `get_microgrid_ids` is declared with no
TTL at all. -/
theorem C8_counterexample :
    get_microgrid_ids ⟨[], true, [("1iot", ⟨["grid"]⟩)]⟩ = .ok [1] ∧
    get_microgrid_ids_specModel ⟨[], true, [("1iot", ⟨["grid"]⟩)]⟩ =
      .error (.valueError "invalid literal for int() with base 10: 1iot") ∧
    get_microgrid_ids_cache.ttlSeconds = none :=
  ⟨by decide, by decide, rfl⟩

/-- C8 (amended): `get_microgrid_ids()` returns the integer ids obtained
by removing every occurrence of the string `iot` from each key of the
loaded config mapping, sorted ascending; the result is cached in the
Streamlit data cache — distinct from the resource cache holding the
config mapping — declared without any TTL. -/
theorem C8_get_microgrid_ids (w : FactoryWorld) (ids : List Int)
    (hdir : w.configDirExists = true)
    (hparse : w.configs.mapM (fun p => pythonInt (replace_iot p.1)) = .ok ids) :
    get_microgrid_ids w = .ok (sortAsc ids) ∧
    (sortAsc ids).Sorted (· ≤ ·) ∧
    (sortAsc ids).Perm ids ∧
    get_microgrid_ids_cache.kind = CacheKind.data ∧
    load_microgrid_configs_cache.kind = CacheKind.resource ∧
    get_microgrid_ids_cache.ttlSeconds = none := by
  refine ⟨?_, sortAsc_sorted ids, sortAsc_perm ids, rfl, rfl, rfl⟩
  simp only [get_microgrid_ids, load_ok hdir, hparse]

/-- Witness for C8 (amended) at keys `iot9` and `iot3`: the ids come out
sorted ascending as `[3, 9]`. -/
theorem C8_get_microgrid_ids_witness :
    get_microgrid_ids ⟨[], true, [("iot9", ⟨["grid"]⟩), ("iot3", ⟨["pv"]⟩)]⟩ =
      .ok (sortAsc [9, 3]) ∧
    sortAsc [9, 3] = [3, 9] :=
  ⟨(C8_get_microgrid_ids ⟨[], true, [("iot9", ⟨["grid"]⟩), ("iot3", ⟨["pv"]⟩)]⟩
      [9, 3] rfl (by decide)).1,
   by decide⟩

set_option maxRecDepth 8000 in
/-- C1: with an event loop already running, `get_microgrid_data` raises
`ReentrantAsyncCall` (a `RuntimeError` whose message names the async
alternative `fetch_microgrid_data`) and issues no upstream fetch; with no
loop running it drives `fetch_microgrid_data` to completion and returns
its result. -/
theorem C1_get_microgrid_data_guard (w : FetchWorld) (mid : Int) (s e : DateLike) :
    (w.loopRunning = true →
      get_microgrid_data w mid s e = (.error ReentrantAsyncCall, 0)) ∧
    "fetch_microgrid_data".toList <:+: reentrantMsg.toList ∧
    (w.loopRunning = false →
      get_microgrid_data w mid s e = fetch_microgrid_data w mid s e) := by
  refine ⟨?_, by decide, ?_⟩
  · intro h; simp [get_microgrid_data, h]
  · intro h; simp [get_microgrid_data, h]

/-- Witness for C1 at a concrete world: with a running loop the call
errors with zero fetches issued; without one it equals the async fetch. -/
theorem C1_get_microgrid_data_guard_witness :
    get_microgrid_data ⟨⟨[], true, []⟩, true, .ret none⟩ 5
        (.ofDate ⟨2024, 1, 1⟩) (.ofDate ⟨2024, 1, 2⟩) = (.error ReentrantAsyncCall, 0) ∧
    get_microgrid_data ⟨⟨[], true, []⟩, false, .ret none⟩ 5
        (.ofDate ⟨2024, 1, 1⟩) (.ofDate ⟨2024, 1, 2⟩) =
      fetch_microgrid_data ⟨⟨[], true, []⟩, false, .ret none⟩ 5
        (.ofDate ⟨2024, 1, 1⟩) (.ofDate ⟨2024, 1, 2⟩) :=
  ⟨(C1_get_microgrid_data_guard _ 5 _ _).1 rfl,
   (C1_get_microgrid_data_guard _ 5 _ _).2.2 rfl⟩

/-- C6: once the range validates and the client and component types
resolve, the fetch always returns a dataframe (never an absent value):
an absent (`None`) or empty upstream result is normalized to the
explicitly-empty dataframe, and a non-empty upstream table is returned
unchanged. -/
theorem C6_fetch_normalizes_empty (w : FetchWorld) (mid : Int) (s e : DateLike)
    (p : DateTime × DateTime) (c : MicrogridData) (ct : List String)
    (hv : validate_range s e = .ok p)
    (hc : get_microgrid_client w.factory mid = .ok c)
    (hct : get_component_types w.factory mid = .ok ct) :
    (∀ r, w.upstream = .ret r →
      ∃ df : DataFrame, fetch_microgrid_data w mid s e = (.ok df, 1)) ∧
    (w.upstream = .ret none →
      fetch_microgrid_data w mid s e = (.ok ([] : DataFrame), 1)) ∧
    (∀ df, w.upstream = .ret (some df) → df.isEmpty = true →
      fetch_microgrid_data w mid s e = (.ok ([] : DataFrame), 1)) ∧
    (∀ df, w.upstream = .ret (some df) → df.isEmpty = false →
      fetch_microgrid_data w mid s e = (.ok df, 1)) := by
  refine ⟨?_, ?_, ?_, ?_⟩
  · intro r h
    simp only [fetch_microgrid_data, hv, hc, hct, h]
    exact ⟨_, rfl⟩
  · intro h
    simp only [fetch_microgrid_data, hv, hc, hct, h]
    rfl
  · intro df h he
    simp only [fetch_microgrid_data, hv, hc, hct, h, normalizeFetchResult, he]
    rfl
  · intro df h he
    simp only [fetch_microgrid_data, hv, hc, hct, h, normalizeFetchResult, he]
    rfl

/-- Witness for C6: a `None` upstream result at a fully-configured world
yields the explicit empty dataframe, not an absent value. -/
theorem C6_fetch_normalizes_empty_witness :
    fetch_microgrid_data
        ⟨⟨[("REPORTING_API_URL", "u"), ("API_KEY", "k"), ("API_SECRET", "s")], true,
          [("5", ⟨["grid"]⟩)]⟩, false, .ret none⟩ 5
        (.ofDate ⟨2024, 1, 1⟩) (.ofDate ⟨2024, 1, 2⟩) = (.ok ([] : DataFrame), 1) :=
  (C6_fetch_normalizes_empty _ 5 _ _
      (⟨⟨2024, 1, 1⟩, 0, 0, 0⟩, ⟨⟨2024, 1, 2⟩, 0, 0, 0⟩)
      ⟨"u", "k", "s", [("5", ⟨["grid"]⟩)]⟩ ["grid"]
      (by decide) (by decide) (by decide)).2.1 rfl

/-! ### Helper lemma and theorems for the sidebar collector -/

/-- Storing under a key makes the key readable. -/
theorem lookup_setKey (st : SessionState) (k : String) (v : SVal) :
    (setKey st k v).lookup k = some v := by
  induction st with
  | nil => simp [setKey, List.lookup]
  | cons p rest ih =>
    simp only [setKey]
    by_cases h : p.1 = k
    · rw [if_pos h]
      simp [List.lookup]
    · rw [if_neg h]
      simp only [List.lookup]
      rw [show (k == p.1) = false from beq_eq_false_iff_ne.mpr (fun he => h he.symm)]
      exact ih

/-- C3: one render step of the sidebar collector under a fixed key
name space.  With nothing stored under the namespaced state key, the
rendered selection — which equals the default Selection when the widget
keys are fresh, i.e. on a true first render — is stored immediately and
returned; without a submit event the previously stored selection is
returned and the state is unchanged, whatever the (un-submitted) widget
edits in the session are; with a submit event the stored selection is
overwritten with, and the returned value equals, the current field
values of the form. -/
theorem C3_collect_sidebar_inputs (st : SessionState) (args : SidebarArgs)
    (ids : List Int) (today : Date) (submitted : Bool) :
    (st.lookup (state_key args.key_pfx) = none →
      collect_sidebar_inputs st args ids today submitted =
        (.ok (renderedSelection st args ids today),
         setKey st (state_key args.key_pfx)
           (.sel (renderedSelection st args ids today)))) ∧
    (lookupInt st (args.key_pfx ++ "microgrid_id") = none →
     lookupDate st (args.key_pfx ++ "start_date") = none →
     lookupDate st (args.key_pfx ++ "end_date") = none →
     lookupStr st (args.key_pfx ++ "timezone") = none →
     lookupStr st (args.key_pfx ++ "resolution") = none →
      renderedSelection st args ids today = defaultSelection args ids today) ∧
    (∀ sel, st.lookup (state_key args.key_pfx) = some (.sel sel) → submitted = false →
      collect_sidebar_inputs st args ids today submitted = (.ok sel, st)) ∧
    (submitted = true →
      collect_sidebar_inputs st args ids today submitted =
        (.ok (renderedSelection st args ids today),
         setKey st (state_key args.key_pfx)
           (.sel (renderedSelection st args ids today)))) := by
  refine ⟨?_, ?_, ?_, ?_⟩
  · intro h
    simp only [collect_sidebar_inputs, h, Option.isNone_none, Bool.or_true,
      if_true, lookup_setKey]
  · intro h1 h2 h3 h4 h5
    simp only [renderedSelection, defaultSelection, h1, h2, h3, h4, h5, Option.getD_none]
  · intro sel hsel hsub
    simp only [collect_sidebar_inputs, hsel, hsub, Option.isNone_some, Bool.or_false,
      if_neg (Bool.false_ne_true), hsel]
  · intro hsub
    simp only [collect_sidebar_inputs, hsub, Bool.true_or, if_true, lookup_setKey]

/-- Witness for C3 under the key name space `p_`: the first render stores
and returns the defaults; an un-submitted start-date edit does not leak
into the returned selection; a submit overwrites the stored selection
with the edited field values. -/
theorem C3_collect_sidebar_inputs_witness :
    collect_sidebar_inputs []
        ⟨⟨2024, 1, 1⟩, ⟨2024, 1, 7⟩, ["15min", "30min"], "15min",
          ["Europe/Berlin", "UTC"], "Europe/Berlin", "p_"⟩ [3, 5] ⟨2024, 1, 10⟩ false =
      (.ok ⟨3, ⟨2024, 1, 1⟩, ⟨2024, 1, 7⟩, "Europe/Berlin", "15min"⟩,
       [("p_applied_filters",
         SVal.sel ⟨3, ⟨2024, 1, 1⟩, ⟨2024, 1, 7⟩, "Europe/Berlin", "15min"⟩)]) ∧
    renderedSelection []
        ⟨⟨2024, 1, 1⟩, ⟨2024, 1, 7⟩, ["15min", "30min"], "15min",
          ["Europe/Berlin", "UTC"], "Europe/Berlin", "p_"⟩ [3, 5] ⟨2024, 1, 10⟩ =
      defaultSelection
        ⟨⟨2024, 1, 1⟩, ⟨2024, 1, 7⟩, ["15min", "30min"], "15min",
          ["Europe/Berlin", "UTC"], "Europe/Berlin", "p_"⟩ [3, 5] ⟨2024, 1, 10⟩ ∧
    collect_sidebar_inputs
        [("p_applied_filters",
          SVal.sel ⟨3, ⟨2024, 1, 1⟩, ⟨2024, 1, 7⟩, "Europe/Berlin", "15min"⟩),
         ("p_start_date", SVal.date ⟨2024, 1, 3⟩)]
        ⟨⟨2024, 1, 1⟩, ⟨2024, 1, 7⟩, ["15min", "30min"], "15min",
          ["Europe/Berlin", "UTC"], "Europe/Berlin", "p_"⟩ [3, 5] ⟨2024, 1, 10⟩ false =
      (.ok ⟨3, ⟨2024, 1, 1⟩, ⟨2024, 1, 7⟩, "Europe/Berlin", "15min"⟩,
       [("p_applied_filters",
         SVal.sel ⟨3, ⟨2024, 1, 1⟩, ⟨2024, 1, 7⟩, "Europe/Berlin", "15min"⟩),
        ("p_start_date", SVal.date ⟨2024, 1, 3⟩)]) ∧
    collect_sidebar_inputs
        [("p_applied_filters",
          SVal.sel ⟨3, ⟨2024, 1, 1⟩, ⟨2024, 1, 7⟩, "Europe/Berlin", "15min"⟩),
         ("p_start_date", SVal.date ⟨2024, 1, 3⟩)]
        ⟨⟨2024, 1, 1⟩, ⟨2024, 1, 7⟩, ["15min", "30min"], "15min",
          ["Europe/Berlin", "UTC"], "Europe/Berlin", "p_"⟩ [3, 5] ⟨2024, 1, 10⟩ true =
      (.ok ⟨3, ⟨2024, 1, 3⟩, ⟨2024, 1, 7⟩, "Europe/Berlin", "15min"⟩,
       [("p_applied_filters",
         SVal.sel ⟨3, ⟨2024, 1, 3⟩, ⟨2024, 1, 7⟩, "Europe/Berlin", "15min"⟩),
        ("p_start_date", SVal.date ⟨2024, 1, 3⟩)]) := by
  refine ⟨?_, ?_, ?_, ?_⟩
  · have h1 := (C3_collect_sidebar_inputs []
      ⟨⟨2024, 1, 1⟩, ⟨2024, 1, 7⟩, ["15min", "30min"], "15min",
        ["Europe/Berlin", "UTC"], "Europe/Berlin", "p_"⟩ [3, 5] ⟨2024, 1, 10⟩ false).1 rfl
    rw [show renderedSelection []
        ⟨⟨2024, 1, 1⟩, ⟨2024, 1, 7⟩, ["15min", "30min"], "15min",
          ["Europe/Berlin", "UTC"], "Europe/Berlin", "p_"⟩ [3, 5] ⟨2024, 1, 10⟩ =
      ⟨3, ⟨2024, 1, 1⟩, ⟨2024, 1, 7⟩, "Europe/Berlin", "15min"⟩ from by decide] at h1
    exact h1
  · exact (C3_collect_sidebar_inputs []
      ⟨⟨2024, 1, 1⟩, ⟨2024, 1, 7⟩, ["15min", "30min"], "15min",
        ["Europe/Berlin", "UTC"], "Europe/Berlin", "p_"⟩ [3, 5] ⟨2024, 1, 10⟩ false).2.1
      rfl rfl rfl rfl rfl
  · exact (C3_collect_sidebar_inputs _
      ⟨⟨2024, 1, 1⟩, ⟨2024, 1, 7⟩, ["15min", "30min"], "15min",
        ["Europe/Berlin", "UTC"], "Europe/Berlin", "p_"⟩ [3, 5] ⟨2024, 1, 10⟩ false).2.2.1
      ⟨3, ⟨2024, 1, 1⟩, ⟨2024, 1, 7⟩, "Europe/Berlin", "15min"⟩ (by decide) rfl
  · have h3 := (C3_collect_sidebar_inputs
      [("p_applied_filters",
        SVal.sel ⟨3, ⟨2024, 1, 1⟩, ⟨2024, 1, 7⟩, "Europe/Berlin", "15min"⟩),
       ("p_start_date", SVal.date ⟨2024, 1, 3⟩)]
      ⟨⟨2024, 1, 1⟩, ⟨2024, 1, 7⟩, ["15min", "30min"], "15min",
        ["Europe/Berlin", "UTC"], "Europe/Berlin", "p_"⟩ [3, 5] ⟨2024, 1, 10⟩ true).2.2.2 rfl
    rw [show renderedSelection
        [("p_applied_filters",
          SVal.sel ⟨3, ⟨2024, 1, 1⟩, ⟨2024, 1, 7⟩, "Europe/Berlin", "15min"⟩),
         ("p_start_date", SVal.date ⟨2024, 1, 3⟩)]
        ⟨⟨2024, 1, 1⟩, ⟨2024, 1, 7⟩, ["15min", "30min"], "15min",
          ["Europe/Berlin", "UTC"], "Europe/Berlin", "p_"⟩ [3, 5] ⟨2024, 1, 10⟩ =
      ⟨3, ⟨2024, 1, 3⟩, ⟨2024, 1, 7⟩, "Europe/Berlin", "15min"⟩ from by decide] at h3
    exact h3

end CsReporting
